import Mathlib

/-!
Verification development for the reqly connection/HTTP core.

The Rust source is shallowly embedded:
* `src/lib/src/http.rs` (and its duplicate in `src/lib/src/lib.rs`):
  `send_http_request` is split into its configuration phase
  (`methodDispatch`, `buildHeaderList`, `configure_request`), the transfer
  (left abstract, an environment function producing a `TransferResult`),
  and the response-assembly phase (`assemble_response`).  Bytes are
  naturals below 256; Rust's UTF-8 validation (`str::from_utf8`,
  `String::from_utf8`) is embedded as `utf8Decode`; Rust's
  `str::split("\r\n")` is embedded as `splitCRLF` over character lists.
* `src/lib/src/websocket.rs`: each manager owns a vector of connections
  and an mpsc channel of commands consumed by one actor task.  A
  connection's transport sink is modelled by the list of frames it has
  observed together with an oracle of outcomes for its future writes
  (`sendOk`, head = next write; an exhausted oracle means writes succeed).
  The channel is a FIFO list plus a flag saying whether the receiver (the
  actor) is still alive; `mpsc::Sender::send` returns an error exactly
  when the receiver is gone, and merely suspends (never fails) on a full
  queue, so the state-level embedding appends unconditionally.
-/

namespace Reqly

/-! ## HTTP data model (`http.rs` lines 24-44) -/

/-- `HttpRequest` from `http.rs`: url, method, raw header lines, optional body. -/
structure HttpRequest where
  url : String
  method : String
  headers : List String
  body : Option String
  deriving DecidableEq

/-- `HttpResponse` from `http.rs`: status code, raw header lines, text body. -/
structure HttpResponse where
  status : Nat
  headers : List String
  body : String
  deriving DecidableEq

/-! ## Method dispatch (`http.rs` lines 60-72) -/

/-- The curl `Easy` verb configuration selected by the dispatch `match`:
`get(true)`, `post(true)`, `put(true)`, `nobody(true)` or
`custom_request(verb)`. -/
inductive CurlMethod where
  | get
  | post
  | put
  | nobody
  | custom (verb : String)
  deriving DecidableEq

/-- The `match request.method.as_str()` dispatch of `send_http_request`
(`http.rs` lines 60-71), byte-for-byte: nine literal arms and a catch-all
forwarding the method verbatim as a custom verb. -/
def methodDispatch (method : String) : CurlMethod :=
  match method with
  | "GET" => .get
  | "POST" => .post
  | "PUT" => .put
  | "DELETE" => .custom "DELETE"
  | "HEAD" => .nobody
  | "OPTIONS" => .custom "OPTIONS"
  | "TRACE" => .custom "TRACE"
  | "PATCH" => .custom "PATCH"
  | "CONNECT" => .custom "CONNECT"
  | m => .custom m

/-! ## Header list and request configuration (`http.rs` lines 74-82) -/

/-- curl `List::append`: appends one raw header line at the end. -/
def curlListAppend (l : List String) (header : String) : List String :=
  l ++ [header]

/-- The `for header in request.headers` loop of `send_http_request`
(`http.rs` lines 75-77): starts from `List::new()` and appends each given
header in sequence. -/
def buildHeaderList (acc : List String) : List String → List String
  | [] => acc
  | header :: rest => buildHeaderList (curlListAppend acc header) rest

/-- The observable configuration accumulated on the curl `Easy` handle
before the transfer is performed. -/
structure EasyConfig where
  url : String
  method : CurlMethod
  http_headers : List String
  post_fields : Option String
  deriving DecidableEq

/-- The configuration phase of `send_http_request` (`http.rs` lines 57-82):
set the url, dispatch the method, build and install the header list, and
attach the body as post fields when (and only when) one is present —
the `if let Some(body)` has no method guard. -/
def configure_request (request : HttpRequest) : EasyConfig :=
  { url := request.url
    method := methodDispatch request.method
    http_headers := buildHeaderList [] request.headers
    post_fields :=
      match request.body with
      | some body => some body
      | none => none }

/-! ## UTF-8 decoding

Rust's `str::from_utf8` / `String::from_utf8` validate the exact RFC 3629
ranges: no bytes C0/C1/F5-FF, continuation bytes 80-BF, E0 needs A0-BF,
ED excludes surrogates (80-9F only), F0 needs 90-BF, F4 needs 80-8F. -/

/-- Is `b` a UTF-8 continuation byte (80-BF)? -/
def utf8Cont (b : Nat) : Bool :=
  0x80 ≤ b && b ≤ 0xBF

/-- Decode a byte list as UTF-8, mirroring Rust's validation: `none`
exactly when the bytes are not valid UTF-8. -/
def utf8Decode : List Nat → Option (List Char)
  | [] => some []
  | b :: rest =>
    if b ≤ 0x7F then
      (utf8Decode rest).map (fun cs => Char.ofNat b :: cs)
    else if b < 0xC2 then
      none
    else if b ≤ 0xDF then
      match rest with
      | b1 :: rest2 =>
        if utf8Cont b1 then
          (utf8Decode rest2).map (fun cs =>
            Char.ofNat ((b - 0xC0) * 0x40 + (b1 - 0x80)) :: cs)
        else none
      | [] => none
    else if b ≤ 0xEF then
      match rest with
      | b1 :: b2 :: rest3 =>
        if (if b = 0xE0 then 0xA0 ≤ b1 && b1 ≤ 0xBF
            else if b = 0xED then 0x80 ≤ b1 && b1 ≤ 0x9F
            else utf8Cont b1) && utf8Cont b2 then
          (utf8Decode rest3).map (fun cs =>
            Char.ofNat ((b - 0xE0) * 0x1000 + (b1 - 0x80) * 0x40 + (b2 - 0x80)) :: cs)
        else none
      | _ => none
    else if b ≤ 0xF4 then
      match rest with
      | b1 :: b2 :: b3 :: rest4 =>
        if (if b = 0xF0 then 0x90 ≤ b1 && b1 ≤ 0xBF
            else if b = 0xF4 then 0x80 ≤ b1 && b1 ≤ 0x8F
            else utf8Cont b1) && utf8Cont b2 && utf8Cont b3 then
          (utf8Decode rest4).map (fun cs =>
            Char.ofNat ((b - 0xF0) * 0x40000 + (b1 - 0x80) * 0x1000
              + (b2 - 0x80) * 0x40 + (b3 - 0x80)) :: cs)
        else none
      | _ => none
    else none

/-! ## Response assembly (`http.rs` lines 103-115) -/

/-- Rust `str::split("\r\n")`: greedy left-to-right split on the two-byte
delimiter, keeping empty segments (an empty input yields one empty
segment, as in Rust). -/
def splitCRLF : List Char → List (List Char)
  | [] => [[]]
  | '\r' :: '\n' :: rest =>
    [] :: splitCRLF rest
  | c :: rest =>
    match splitCRLF rest with
    | [] => [[c]]
    | h :: t => (c :: h) :: t

/-- What the transfer hands back: the status code readable after
completion, the accumulated raw header bytes, and the accumulated raw
body bytes (`http.rs` lines 84-103). -/
structure TransferResult where
  status_code : Nat
  header_buffer : List Nat
  response_body : List Nat
  deriving DecidableEq

/-- The response-assembly phase of `send_http_request` (`http.rs` lines
103-115): decode the header buffer as UTF-8 (`str::from_utf8 ... ?`),
split on CRLF and drop empty segments keeping order, then build the
`HttpResponse` whose body must itself decode as UTF-8
(`String::from_utf8 ... ?`); any decode failure aborts the whole call
with an error and no response is produced. -/
def assemble_response (status_code : Nat) (header_buffer response_body : List Nat) :
    Except String HttpResponse :=
  match utf8Decode header_buffer with
  | none => .error "invalid utf-8 sequence"
  | some hs =>
    let headers := ((splitCRLF hs).filter (fun s => !s.isEmpty)).map (fun cs => String.mk cs)
    match utf8Decode response_body with
    | none => .error "invalid utf-8 sequence"
    | some bs => .ok { status := status_code, headers := headers, body := String.mk bs }

/-- `send_http_request` (`http.rs` lines 56-116) with the network transfer
abstracted as an environment function from the configured handle to the
bytes and status it produced. -/
def send_http_request (request : HttpRequest) (transfer : EasyConfig → TransferResult) :
    Except String HttpResponse :=
  let easy := configure_request request
  let result := transfer easy
  assemble_response result.status_code result.header_buffer result.response_body

/-! ## WebSocket manager (`websocket.rs` lines 39-186)

A `WebSocketConnection` (`WebSocketStream<MaybeTlsStream<TcpStream>>`) is
modelled by the text frames its sink has observed plus an outcome oracle
for its future writes. -/

/-- One open WebSocket stream, seen through its sink: `writes` is the
sequence of text frames the transport has observed, `sendOk` the outcomes
of the following writes (head = next write; exhausted oracle = success). -/
structure WebSocketConnection where
  writes : List String
  sendOk : List Bool
  deriving DecidableEq

/-- `conn.send(Message::Text(msg)).await` on the tungstenite sink: on
success the frame reaches the transport, on failure nothing is observed. -/
def WebSocketConnection.send (conn : WebSocketConnection) (msg : String) :
    Except String WebSocketConnection :=
  match conn.sendOk with
  | false :: _ => .error "websocket write failed"
  | true :: rest => .ok { writes := conn.writes ++ [msg], sendOk := rest }
  | [] => .ok { writes := conn.writes ++ [msg], sendOk := [] }

/-- `WebSocketCommand` (`websocket.rs` lines 44-47). -/
inductive WebSocketCommand where
  | SendMessage (id : Nat) (msg : String)
  | Close (id : Nat)
  deriving DecidableEq

/-- One iteration of the actor loop spawned by `WebSocketManager::new`
(`websocket.rs` lines 134-150): `SendMessage(id, msg)` looks the
connection up with `get_mut(id)` and performs the write, discarding a
write failure (`let _ = conn.send(..)`); `Close(id)` removes position
`id` when `id < conns.len()` (`Vec::remove` shifts later elements down). -/
def wsHandleCommand (connections : List WebSocketConnection) :
    WebSocketCommand → List WebSocketConnection
  | .SendMessage id msg =>
    match connections[id]? with
    | some conn =>
      match conn.send msg with
      | .ok conn2 => connections.set id conn2
      | .error _ => connections
    | none => connections
  | .Close id =>
    if id < connections.length then connections.eraseIdx id
    else connections

/-- The actor consuming a buffered queue of commands: strictly head-first,
in enqueue (FIFO) order, as `receiver.recv().await` yields them. -/
def wsActorRun (connections : List WebSocketConnection)
    (queue : List WebSocketCommand) : List WebSocketConnection :=
  queue.foldl wsHandleCommand connections

/-- The capacity passed to `mpsc::channel(32)` in `WebSocketManager::new`
(`websocket.rs` line 129). -/
def wsChannelCapacity : Nat := 32

/-- The manager's observable state: the commands buffered in the mpsc
channel (FIFO, bounded by `wsChannelCapacity`; a full queue suspends the
sender rather than failing), the shared connection vector, and whether
the receiving actor task is still alive. -/
structure WSManagerState where
  queue : List WebSocketCommand
  connections : List WebSocketConnection
  channelOpen : Bool
  deriving DecidableEq

/-- `self.sender.send(cmd).await` on the tokio mpsc channel: enqueues at
the tail and returns `Ok`, unless the receiver has been dropped, in which
case it returns `Err(SendError(cmd))` carrying the undelivered command.
A full queue only suspends the caller (backpressure), never errs, so the
state-level embedding appends unconditionally when the channel is open. -/
def wsChanSend (st : WSManagerState) (cmd : WebSocketCommand) :
    Except WebSocketCommand WSManagerState :=
  if st.channelOpen then .ok { st with queue := st.queue ++ [cmd] }
  else .error cmd

/-- The successful path of `WebSocketManager::connect` (`websocket.rs`
lines 157-167): after the handshake produced `ws_stream`, lock the shared
vector, take `id := conns.len()`, push the stream, and return `Ok(id)`.
(URL-parse or handshake failure returns early without touching the
collection, so only the successful case mutates state.) -/
def WebSocketManager.connect (st : WSManagerState) (ws_stream : WebSocketConnection) :
    WSManagerState × Nat :=
  let conns := st.connections
  let id := conns.length
  ({ st with connections := conns ++ [ws_stream] }, id)

/-- `WebSocketManager::send_message` (`websocket.rs` lines 169-176): lock
the vector, `get_mut(connection_id)`; when present, perform the write and
propagate its failure with `?`; fall through to `Ok(())` otherwise.  The
command queue is never touched. -/
def WebSocketManager.send_message (st : WSManagerState) (connection_id : Nat)
    (message : String) : Except String WSManagerState :=
  match st.connections[connection_id]? with
  | some conn =>
    match conn.send message with
    | .ok conn2 => .ok { st with connections := st.connections.set connection_id conn2 }
    | .error e => .error e
  | none => .ok st

/-- `WebSocketManager::close_connection` (`websocket.rs` lines 178-181):
enqueue `Close(connection_id)` and discard the enqueue result with
`let _ =`; the function returns `()` either way. -/
def WebSocketManager.close_connection (st : WSManagerState) (connection_id : Nat) :
    WSManagerState :=
  match wsChanSend st (.Close connection_id) with
  | .ok st2 => st2
  | .error _ => st

/-! ## TCP manager (`websocket.rs` lines 21-103), mirror of the above -/

/-- One open `TcpStream`, seen through its write half: `writes` is the
sequence of byte messages the transport has observed, `sendOk` the
outcomes of the following writes. -/
structure TokioTcpStream where
  writes : List (List Nat)
  sendOk : List Bool
  deriving DecidableEq

/-- `conn.write_all(&msg).await` on a `TcpStream`. -/
def TokioTcpStream.write_all (conn : TokioTcpStream) (msg : List Nat) :
    Except String TokioTcpStream :=
  match conn.sendOk with
  | false :: _ => .error "tcp write failed"
  | true :: rest => .ok { writes := conn.writes ++ [msg], sendOk := rest }
  | [] => .ok { writes := conn.writes ++ [msg], sendOk := [] }

/-- `TcpCommand` (`websocket.rs` lines 26-29). -/
inductive TcpCommand where
  | SendMessage (id : Nat) (msg : List Nat)
  | Close (id : Nat)
  deriving DecidableEq

/-- One iteration of the actor loop spawned by `TcpManager::new`
(`websocket.rs` lines 57-73): same shape as the WebSocket actor. -/
def tcpHandleCommand (connections : List TokioTcpStream) :
    TcpCommand → List TokioTcpStream
  | .SendMessage id msg =>
    match connections[id]? with
    | some conn =>
      match conn.write_all msg with
      | .ok conn2 => connections.set id conn2
      | .error _ => connections
    | none => connections
  | .Close id =>
    if id < connections.length then connections.eraseIdx id
    else connections

/-- Observable state of a `TcpManager`. -/
structure TcpManagerState where
  queue : List TcpCommand
  connections : List TokioTcpStream
  channelOpen : Bool
  deriving DecidableEq

/-- `self.sender.send(cmd).await` for the TCP command channel
(`mpsc::channel(32)` in `TcpManager::new`, `websocket.rs` line 51). -/
def tcpChanSend (st : TcpManagerState) (cmd : TcpCommand) :
    Except TcpCommand TcpManagerState :=
  if st.channelOpen then .ok { st with queue := st.queue ++ [cmd] }
  else .error cmd

/-- `TcpManager::close_connection` (`websocket.rs` lines 100-102):
enqueue `Close(connection_id)` and discard the result with `let _ =`. -/
def TcpManager.close_connection (st : TcpManagerState) (connection_id : Nat) :
    TcpManagerState :=
  match tcpChanSend st (.Close connection_id) with
  | .ok st2 => st2
  | .error _ => st

/-! ## UDP manager (`websocket.rs` lines 105-125) -/

/-- `UdpSocket::recv_from` into a fixed buffer: the kernel copies at most
`buffer.length` bytes of the arriving datagram into the buffer (excess
bytes of the datagram are discarded) and returns the number copied. -/
def udpRecvFrom (datagram buffer : List Nat) : Nat × List Nat :=
  let len := min datagram.length buffer.length
  (len, datagram.take len ++ buffer.drop len)

/-- `UdpManager::receive_message` (`websocket.rs` lines 118-124): allocate
`vec![0; 1024]`, receive into it, then `buffer.truncate(len)` and return
the buffer. -/
def UdpManager.receive_message (datagram : List Nat) : List Nat :=
  let buffer := List.replicate 1024 0
  let received := udpRecvFrom datagram buffer
  received.2.take received.1

/-! ## Helper lemmas -/

/-- The header loop is append: starting from `acc`, the headers land behind
`acc` in their given order, duplicates included. -/
theorem buildHeaderList_eq (hs : List String) :
    ∀ acc, buildHeaderList acc hs = acc ++ hs := by
  induction hs with
  | nil => intro acc; simp [buildHeaderList]
  | cons h t ih => intro acc; simp [buildHeaderList, curlListAppend, ih]

/-- A string built from a nonempty character list is not the empty string. -/
theorem mk_ne_empty_of_ne_nil (cs : List Char) (h : cs ≠ []) :
    String.mk cs ≠ "" := by
  intro hc
  exact h (by simpa using congrArg String.data hc)

/-! ## Claims about the HTTP executor -/

/-- Claim C6: the executor dispatches on the method string exactly as the
nine literal arms prescribe — GET is a fetch, POST/PUT are body-carrying,
HEAD is a fetch with no response body, DELETE/OPTIONS/TRACE/PATCH/CONNECT
go out as custom verbs — and any other token, matched case-sensitively,
is forwarded verbatim as a literal custom verb with no validation or
rejection. -/
theorem methodDispatch_exact (m : String)
    (hm : m ∉ ["GET", "POST", "PUT", "DELETE", "HEAD", "OPTIONS", "TRACE", "PATCH", "CONNECT"]) :
    methodDispatch "GET" = .get ∧
    methodDispatch "POST" = .post ∧
    methodDispatch "PUT" = .put ∧
    methodDispatch "HEAD" = .nobody ∧
    methodDispatch "DELETE" = .custom "DELETE" ∧
    methodDispatch "OPTIONS" = .custom "OPTIONS" ∧
    methodDispatch "TRACE" = .custom "TRACE" ∧
    methodDispatch "PATCH" = .custom "PATCH" ∧
    methodDispatch "CONNECT" = .custom "CONNECT" ∧
    methodDispatch m = .custom m := by
  refine ⟨by decide, by decide, by decide, by decide, by decide,
    by decide, by decide, by decide, by decide, ?_⟩
  simp only [List.mem_cons, List.not_mem_nil, or_false, not_or] at hm
  obtain ⟨h1, h2, h3, h4, h5, h6, h7, h8, h9⟩ := hm
  unfold methodDispatch
  split <;> simp_all

/-- Witness for C6 at the case-sensitively unmatched token "get". -/
theorem methodDispatch_exact_witness :
    methodDispatch "get" = CurlMethod.custom "get" :=
  (methodDispatch_exact "get" (by decide)).2.2.2.2.2.2.2.2.2

/-- Claim C7: for every request — hence for every method — the configured
handle carries exactly the request's header lines in their given sequence
order (duplicates included and unmodified), and the body, when present,
is attached as the request payload unconditionally. -/
theorem configure_request_headers_body (request : HttpRequest) :
    (configure_request request).http_headers = request.headers ∧
    (configure_request request).post_fields = request.body := by
  constructor
  · simpa [configure_request] using buildHeaderList_eq request.headers []
  · cases hb : request.body <;> simp [configure_request, hb]

/-- Claim C8: response assembly — the status code handed back by the
completed transfer is passed through unchanged; the raw header bytes are
split on CRLF with every empty segment discarded, the surviving header
lines a subsequence (order preserved) of the split segments and none of
them empty; the body bytes must decode as UTF-8 or the whole call fails
with an error and no response record is produced. -/
theorem assemble_response_spec (status_code : Nat) (header_buffer response_body : List Nat) :
    (utf8Decode header_buffer = none →
      assemble_response status_code header_buffer response_body = .error "invalid utf-8 sequence") ∧
    (utf8Decode response_body = none →
      ∃ e, assemble_response status_code header_buffer response_body = .error e) ∧
    (∀ hs bs, utf8Decode header_buffer = some hs → utf8Decode response_body = some bs →
      assemble_response status_code header_buffer response_body =
        .ok { status := status_code,
              headers := ((splitCRLF hs).filter (fun s => !s.isEmpty)).map (fun cs => String.mk cs),
              body := String.mk bs }) ∧
    (∀ r hs, assemble_response status_code header_buffer response_body = .ok r →
      utf8Decode header_buffer = some hs →
      r.status = status_code ∧
      r.headers.Sublist ((splitCRLF hs).map (fun cs => String.mk cs)) ∧
      ∀ hdr ∈ r.headers, hdr ≠ "") := by
  refine ⟨?_, ?_, ?_, ?_⟩
  · intro h
    simp [assemble_response, h]
  · intro h
    unfold assemble_response
    cases hh : utf8Decode header_buffer with
    | none => exact ⟨_, rfl⟩
    | some hs => simp [h]
  · intro hs bs h1 h2
    simp [assemble_response, h1, h2]
  · intro r hs hok hh
    unfold assemble_response at hok
    rw [hh] at hok
    cases hb : utf8Decode response_body with
    | none => rw [hb] at hok; cases hok
    | some bs =>
      rw [hb] at hok
      simp only [Except.ok.injEq] at hok
      subst hok
      refine ⟨rfl, (List.filter_sublist _).map _, ?_⟩
      intro hdr hmem
      simp only [List.mem_map, List.mem_filter] at hmem
      obtain ⟨cs, ⟨hsplit, hne⟩, rfl⟩ := hmem
      refine mk_ne_empty_of_ne_nil cs ?_
      intro h0
      subst h0
      simp at hne

/-- Witness for C8: assembly fails on a non-UTF-8 body byte (0xFF) and
succeeds on valid bytes, splitting "A\r\n\r\n" into the single header
line "A". -/
theorem assemble_response_spec_witness :
    (∃ e, assemble_response 200 [65, 13, 10, 13, 10] [255] = Except.error e) ∧
    assemble_response 200 [65, 13, 10, 13, 10] [111, 107] =
      .ok { status := 200, headers := ["A"], body := "ok" } := by
  constructor
  · exact (assemble_response_spec 200 [65, 13, 10, 13, 10] [255]).2.1 (by decide)
  · exact ((assemble_response_spec 200 [65, 13, 10, 13, 10] [111, 107]).2.2.1
      [Char.ofNat 65, Char.ofNat 13, Char.ofNat 10, Char.ofNat 13, Char.ofNat 10]
      [Char.ofNat 111, Char.ofNat 107] (by decide) (by decide)).trans
      (congrArg Except.ok (by decide))

/-! ## Claims about the connection managers -/

/-- Concrete states used by the witnesses and counterexamples. -/
def wsConnOk : WebSocketConnection := { writes := [], sendOk := [true] }

/-- A connection whose next write fails. -/
def wsConnFail : WebSocketConnection := { writes := [], sendOk := [false] }

/-- Manager holding one connection whose next write succeeds. -/
def wsStateOk : WSManagerState :=
  { queue := [], connections := [wsConnOk], channelOpen := true }

/-- Manager holding one connection whose next write fails. -/
def wsStateFail : WSManagerState :=
  { queue := [], connections := [wsConnFail], channelOpen := true }

/-- Manager with no connections. -/
def wsStateEmpty : WSManagerState :=
  { queue := [], connections := [], channelOpen := true }

/-- Claim C1 counterexample: `send_message` is not fire-and-forget.  On a
connection whose write fails, the very call that issued the send returns
the error — the write happened inside the call, not later inside the
actor, and its failure is surfaced to the caller.  And on a successful
send the command queue is still empty while the frame is already on the
transport: no `SendMessage` command was enqueued and the network write
was awaited before returning. -/
theorem send_message_not_fire_and_forget :
    WebSocketManager.send_message wsStateFail 0 "ping" = .error "websocket write failed" ∧
    WebSocketManager.send_message wsStateOk 0 "ping" =
      .ok { queue := [], connections := [{ writes := ["ping"], sendOk := [] }],
            channelOpen := true } :=
  ⟨rfl, rfl⟩

/-- The connection as it stands after one successful write of `msg`: the
frame is appended to the transport trace and one oracle entry consumed. -/
def wsAfterWrite (conn : WebSocketConnection) (msg : String) : WebSocketConnection :=
  { writes := conn.writes ++ [msg], sendOk := conn.sendOk.tail }

/-- Claim C1 (amended): `send_message` performs the network write itself,
synchronously: whenever it returns `Ok` the command queue is exactly as
before (nothing was enqueued); on a connection whose next write fails the
caller receives the error; on a connection whose next write succeeds the
frame is on the transport when the call returns; and only the actor's
`SendMessage` handler — which no manager operation ever feeds — drops a
write failure without surfacing it, leaving the collection unchanged. -/
theorem send_message_synchronous_write (st : WSManagerState) (id : Nat) (msg : String)
    (conn : WebSocketConnection) :
    (∀ st2, WebSocketManager.send_message st id msg = .ok st2 → st2.queue = st.queue) ∧
    (st.connections[id]? = some conn → conn.sendOk.head? = some false →
      WebSocketManager.send_message st id msg = .error "websocket write failed") ∧
    (st.connections[id]? = some conn → conn.sendOk.head? = some true →
      WebSocketManager.send_message st id msg =
        .ok { st with connections := st.connections.set id (wsAfterWrite conn msg) }) ∧
    (∀ conns, conns[id]? = some conn → conn.sendOk.head? = some false →
      wsHandleCommand conns (.SendMessage id msg) = conns) := by
  refine ⟨?_, ?_, ?_, ?_⟩
  · intro st2 hok
    unfold WebSocketManager.send_message at hok
    split at hok
    · split at hok
      · injection hok with h2
        rw [← h2]
      · cases hok
    · injection hok with h2
      rw [← h2]
  · intro hl hfail
    obtain ⟨w, so⟩ := conn
    cases so with
    | nil => simp at hfail
    | cons b rest =>
      simp only [List.head?_cons, Option.some.injEq] at hfail
      subst hfail
      simp [WebSocketManager.send_message, hl, WebSocketConnection.send]
  · intro hl hokk
    obtain ⟨w, so⟩ := conn
    cases so with
    | nil => simp at hokk
    | cons b rest =>
      simp only [List.head?_cons, Option.some.injEq] at hokk
      subst hokk
      simp [WebSocketManager.send_message, hl, WebSocketConnection.send, wsAfterWrite]
  · intro conns hl hfail
    obtain ⟨w, so⟩ := conn
    cases so with
    | nil => simp at hfail
    | cons b rest =>
      simp only [List.head?_cons, Option.some.injEq] at hfail
      subst hfail
      simp [wsHandleCommand, hl, WebSocketConnection.send]

/-- Witness for the amended C1: the successful direct write and the
actor-side dropped failure, at concrete states. -/
theorem send_message_synchronous_write_witness :
    WebSocketManager.send_message wsStateOk 0 "ping" =
      .ok { wsStateOk with connections := wsStateOk.connections.set 0 (wsAfterWrite wsConnOk "ping") } ∧
    wsHandleCommand [wsConnFail] (.SendMessage 0 "x") = [wsConnFail] :=
  ⟨(send_message_synchronous_write wsStateOk 0 "ping" wsConnOk).2.2.1 rfl rfl,
   (send_message_synchronous_write wsStateFail 0 "x" wsConnFail).2.2.2 [wsConnFail] rfl rfl⟩

/-- Claim C2: a successful `connect` appends the new connection to the
shared collection and returns the collection's length at the moment of
insertion as the handle; two successive successful connects therefore
return distinct handles, in insertion order, each addressing its own
connection. -/
theorem connect_returns_insertion_position (st : WSManagerState)
    (c1 c2 : WebSocketConnection) :
    WebSocketManager.connect st c1 =
      ({ st with connections := st.connections ++ [c1] }, st.connections.length) ∧
    (st.connections ++ [c1])[st.connections.length]? = some c1 ∧
    WebSocketManager.connect { st with connections := st.connections ++ [c1] } c2 =
      ({ st with connections := (st.connections ++ [c1]) ++ [c2] },
        st.connections.length + 1) ∧
    st.connections.length ≠ st.connections.length + 1 ∧
    ((st.connections ++ [c1]) ++ [c2])[st.connections.length + 1]? = some c2 := by
  refine ⟨rfl, List.getElem?_concat_length st.connections c1, ?_, by omega, ?_⟩
  · simp [WebSocketManager.connect]
  · have := List.getElem?_concat_length (st.connections ++ [c1]) c2
    simpa using this

/-- Witness for C2 at the empty manager: handles 0 then 1. -/
theorem connect_returns_insertion_position_witness :
    WebSocketManager.connect wsStateEmpty wsConnOk =
      ({ wsStateEmpty with connections := [wsConnOk] }, 0) ∧ (0 : Nat) ≠ 1 :=
  ⟨(connect_returns_insertion_position wsStateEmpty wsConnOk wsConnFail).1,
   (connect_returns_insertion_position wsStateEmpty wsConnOk wsConnFail).2.2.2.1⟩

/-- Claim C3: when the actor applies `Close(h)` with `h` a valid position,
the collection becomes `eraseIdx h`: exactly the connection at `h` is
removed, the length drops by one, every position below `h` is untouched,
and each position `j ≥ h` now holds the connection previously at `j + 1`
(effective handles above `h` shift down by one).  The TCP actor behaves
identically. -/
theorem close_removes_exactly_h (conns : List WebSocketConnection)
    (tconns : List TokioTcpStream) (h : Nat)
    (hw : h < conns.length) (ht : h < tconns.length) :
    wsHandleCommand conns (.Close h) = conns.eraseIdx h ∧
    (wsHandleCommand conns (.Close h)).length = conns.length - 1 ∧
    (∀ j, j < h → (wsHandleCommand conns (.Close h))[j]? = conns[j]?) ∧
    (∀ j, h ≤ j → (wsHandleCommand conns (.Close h))[j]? = conns[j + 1]?) ∧
    tcpHandleCommand tconns (.Close h) = tconns.eraseIdx h ∧
    (∀ j, h ≤ j → (tcpHandleCommand tconns (.Close h))[j]? = tconns[j + 1]?) := by
  have e1 : wsHandleCommand conns (.Close h) = conns.eraseIdx h := by
    simp [wsHandleCommand, hw]
  have e2 : tcpHandleCommand tconns (.Close h) = tconns.eraseIdx h := by
    simp [tcpHandleCommand, ht]
  refine ⟨e1, ?_, ?_, ?_, e2, ?_⟩
  · rw [e1, List.length_eraseIdx]; simp [hw]
  · intro j hj; rw [e1, List.getElem?_eraseIdx]; simp [hj]
  · intro j hj; rw [e1, List.getElem?_eraseIdx]; simp [Nat.not_lt.mpr hj]
  · intro j hj; rw [e2, List.getElem?_eraseIdx]; simp [Nat.not_lt.mpr hj]

/-- Witness for C3: closing handle 1 of three connections keeps the first
and third, the third shifting into position 1. -/
theorem close_removes_exactly_h_witness :
    wsHandleCommand [wsConnOk, wsConnFail, wsConnOk] (.Close 1) = [wsConnOk, wsConnOk] ∧
    tcpHandleCommand [{ writes := [], sendOk := [] },
      { writes := [[1]], sendOk := [] }] (.Close 1) = [{ writes := [], sendOk := [] }] :=
  ⟨((close_removes_exactly_h [wsConnOk, wsConnFail, wsConnOk]
      [{ writes := [], sendOk := [] }, { writes := [[1]], sendOk := [] }] 1
      (by decide) (by decide)).1).trans rfl,
   ((close_removes_exactly_h [wsConnOk, wsConnFail, wsConnOk]
      [{ writes := [], sendOk := [] }, { writes := [[1]], sendOk := [] }] 1
      (by decide) (by decide)).2.2.2.2.1).trans rfl⟩

/-- Claim C4: for a handle at or beyond the collection length, `send`
returns `Ok` with the state untouched, and the actor's `Close` (and
`SendMessage`) leave the collection untouched — no error anywhere, so an
invalid handle is indistinguishable from success. -/
theorem invalid_handle_noop (st : WSManagerState) (h : Nat) (msg : String)
    (hge : st.connections.length ≤ h) :
    WebSocketManager.send_message st h msg = .ok st ∧
    wsHandleCommand st.connections (.Close h) = st.connections ∧
    wsHandleCommand st.connections (.SendMessage h msg) = st.connections := by
  have hnone : st.connections[h]? = none := List.getElem?_eq_none hge
  refine ⟨?_, ?_, ?_⟩
  · simp [WebSocketManager.send_message, hnone]
  · simp [wsHandleCommand, Nat.not_lt.mpr hge]
  · simp [wsHandleCommand, hnone]

/-- Witness for C4: handle 3 on an empty manager. -/
theorem invalid_handle_noop_witness :
    WebSocketManager.send_message wsStateEmpty 3 "ping" = .ok wsStateEmpty ∧
    wsHandleCommand wsStateEmpty.connections (.Close 3) = wsStateEmpty.connections :=
  ⟨(invalid_handle_noop wsStateEmpty 3 "ping" (by decide)).1,
   (invalid_handle_noop wsStateEmpty 3 "ping" (by decide)).2.1⟩

/-- Helper: inverting a successful `send_message` on a valid handle — the
new collection is the old one with the written connection updated in
place. -/
theorem send_message_ok_elim (st : WSManagerState) (h : Nat) (m : String)
    (w : List String) (so : List Bool) (st1 : WSManagerState)
    (hl : st.connections[h]? = some { writes := w, sendOk := so })
    (h1 : WebSocketManager.send_message st h m = .ok st1) :
    ∃ rest, st1.connections = st.connections.set h { writes := w ++ [m], sendOk := rest } := by
  unfold WebSocketManager.send_message at h1
  rw [hl] at h1
  cases so with
  | nil =>
    simp only [WebSocketConnection.send, Except.ok.injEq] at h1
    exact ⟨[], by rw [← h1]⟩
  | cons b rest =>
    cases b
    · simp [WebSocketConnection.send] at h1
    · simp only [WebSocketConnection.send, Except.ok.injEq] at h1
      exact ⟨rest, by rw [← h1]⟩

/-- Claim C5: the command channel created by `WebSocketManager::new` is a
single bounded channel of capacity exactly 32; the actor consumes the
buffered commands strictly head-first in FIFO enqueue order; and two
send operations issued in sequence on the same handle leave the two
frames on that connection's transport in exactly that order. -/
theorem commands_fifo_capacity_32 (conns : List WebSocketConnection)
    (cmd : WebSocketCommand) (queue : List WebSocketCommand)
    (st st1 st2 : WSManagerState) (h : Nat) (m1 m2 : String)
    (conn : WebSocketConnection) :
    wsChannelCapacity = 32 ∧
    wsActorRun conns (cmd :: queue) = wsActorRun (wsHandleCommand conns cmd) queue ∧
    (st.connections[h]? = some conn →
      WebSocketManager.send_message st h m1 = .ok st1 →
      WebSocketManager.send_message st1 h m2 = .ok st2 →
      ∃ rest, st2.connections[h]? = some { writes := conn.writes ++ [m1, m2], sendOk := rest }) := by
  refine ⟨rfl, rfl, ?_⟩
  intro hl h1 h2
  obtain ⟨w, so⟩ := conn
  have hlt : h < st.connections.length := (List.getElem?_eq_some.mp hl).1
  obtain ⟨r1, e1⟩ := send_message_ok_elim st h m1 w so st1 hl h1
  have hlt1 : h < st1.connections.length := by
    rw [e1, List.length_set]; exact hlt
  have hl1 : st1.connections[h]? = some { writes := w ++ [m1], sendOk := r1 } := by
    rw [e1]; exact List.getElem?_set_self (by simpa using hlt)
  obtain ⟨r2, e2⟩ := send_message_ok_elim st1 h m2 (w ++ [m1]) r1 st2 hl1 h2
  refine ⟨r2, ?_⟩
  rw [e2, List.getElem?_set_self hlt1]
  simp

/-- Concrete two-send run for the C5 witness: fresh connection, after
"a", after "a" then "b". -/
def wsStateFresh : WSManagerState :=
  { queue := [], connections := [{ writes := [], sendOk := [] }], channelOpen := true }

/-- State of `wsStateFresh` after sending "a" on handle 0. -/
def wsStateMid : WSManagerState :=
  { queue := [], connections := [{ writes := ["a"], sendOk := [] }], channelOpen := true }

/-- State of `wsStateMid` after sending "b" on handle 0. -/
def wsStateDone : WSManagerState :=
  { queue := [], connections := [{ writes := ["a", "b"], sendOk := [] }], channelOpen := true }

/-- Witness for C5: the concrete two-send run leaves the frames "a", "b"
in issue order on the transport. -/
theorem commands_fifo_capacity_32_witness :
    ∃ rest, wsStateDone.connections[0]? =
      some { writes := ["a", "b"], sendOk := rest } :=
  (commands_fifo_capacity_32 [] (.Close 0) [] wsStateFresh wsStateMid wsStateDone
    0 "a" "b" { writes := [], sendOk := [] }).2.2 rfl rfl rfl

/-- Claim C9: `receive_message` never returns more than 1024 bytes — the
returned payload is exactly the datagram's first 1024 bytes, so a longer
datagram is silently truncated with no error and no indication (the
return differs from the datagram but the call still succeeds). -/
theorem receive_message_truncates (datagram : List Nat)
    (hlong : 1024 < datagram.length) :
    UdpManager.receive_message datagram = datagram.take 1024 ∧
    (UdpManager.receive_message datagram).length = 1024 ∧
    UdpManager.receive_message datagram ≠ datagram := by
  have hmin : min datagram.length 1024 = 1024 := Nat.min_eq_right (le_of_lt hlong)
  have key : UdpManager.receive_message datagram = datagram.take 1024 := by
    unfold UdpManager.receive_message udpRecvFrom
    simp only [List.length_replicate, hmin]
    rw [List.take_append_of_le_length, List.take_take]
    · simp
    · rw [List.length_take]; omega
  refine ⟨key, ?_, ?_⟩
  · rw [key, List.length_take]; omega
  · rw [key]
    intro hcontra
    have hlen := congrArg List.length hcontra
    rw [List.length_take] at hlen
    omega

/-- Witness for C9: a 2000-byte datagram comes back as its first 1024
bytes, not as itself. -/
theorem receive_message_truncates_witness :
    UdpManager.receive_message (List.replicate 2000 7) ≠ List.replicate 2000 7 :=
  (receive_message_truncates (List.replicate 2000 7)
    (by rw [List.length_replicate]; omega)).2.2

/-- Claim C10: `close_connection` always returns plainly — its codomain is
a manager state, never an error.  With the channel closed (actor gone)
the `SendError` from the enqueue is discarded and the state is exactly
unchanged, so the caller cannot observe that the `Close` command was
never delivered; with the channel open the command is appended to the
queue.  The TCP manager behaves identically. -/
theorem close_connection_total (st : WSManagerState) (tst : TcpManagerState) (id : Nat) :
    (st.channelOpen = false → WebSocketManager.close_connection st id = st) ∧
    (st.channelOpen = true →
      WebSocketManager.close_connection st id = { st with queue := st.queue ++ [.Close id] }) ∧
    (tst.channelOpen = false → TcpManager.close_connection tst id = tst) ∧
    (tst.channelOpen = true →
      TcpManager.close_connection tst id = { tst with queue := tst.queue ++ [.Close id] }) := by
  refine ⟨?_, ?_, ?_, ?_⟩ <;> intro h <;>
    simp [WebSocketManager.close_connection, TcpManager.close_connection,
      wsChanSend, tcpChanSend, h]

/-- Manager whose actor has terminated (command receiver dropped). -/
def wsStateClosed : WSManagerState :=
  { queue := [], connections := [], channelOpen := false }

/-- TCP manager whose actor has terminated. -/
def tcpStateClosed : TcpManagerState :=
  { queue := [], connections := [], channelOpen := false }

/-- Witness for C10: with the channel closed, `close_connection` returns
with the state exactly unchanged — the lost command is unobservable. -/
theorem close_connection_total_witness :
    WebSocketManager.close_connection wsStateClosed 0 = wsStateClosed ∧
    TcpManager.close_connection tcpStateClosed 7 = tcpStateClosed :=
  ⟨(close_connection_total wsStateClosed tcpStateClosed 0).1 rfl,
   (close_connection_total wsStateClosed tcpStateClosed 7).2.2.1 rfl⟩

end Reqly
